import Mathlib

/-!
Shallow embedding of the e-commerce backend (customers, goods, reviews,
purchases) and its service operations, translated from
`services/customers.py`, `services/sales.py`, `services/reviews.py` and the
schema in `create_ecommerce.py`.

Modelling conventions:
* SQLite rows become Lean structures; a table is a `List` of rows.
* `SELECT ... WHERE x = ? ... fetchone` becomes `List.find?` (first match).
* `UPDATE ... WHERE x = ?` maps over all matching rows; the schema's `CHECK`
  constraints from `create_ecommerce.py` are evaluated on every updated or
  inserted row, and a violation aborts the statement with no change
  (sqlite3.IntegrityError, rollback of the open transaction).
* Monetary values (`REAL` columns) are rationals; JSON integers are `Int`.
* Each Flask handler becomes a function from its request data and the
  database state to a structured response (mirroring the handler's `return`
  sites, with their HTTP status codes) together with the new state.
* A field that the handler reads with `if "X" not in data` is an `Option`.
-/

/-- A row of the `Customers` table. -/
structure Customer where
  customerId : Nat
  fullName : String
  username : String
  password : String
  age : Int
  address : String
  gender : String
  maritalStatus : String
  walletBalance : ℚ
  isAdmin : Bool
deriving DecidableEq

/-- A row of the `Goods` table. -/
structure Good where
  goodId : Nat
  name : String
  category : String
  pricePerItem : ℚ
  description : String
  stockCount : Int
deriving DecidableEq

/-- A row of the `Reviews` table, with the columns `services/reviews.py`
reads and writes (`Status`, `Upvotes`, `Downvotes`). -/
structure Review where
  reviewId : Nat
  customerId : Nat
  goodId : Nat
  rating : Int
  comment : String
  status : String
  upvotes : Int
  downvotes : Int
deriving DecidableEq

/-- A row of the `HistoricalPurchases` table. -/
structure Purchase where
  customerId : Nat
  goodId : Nat
  quantity : Int
  totalAmount : ℚ
deriving DecidableEq

/-- The database state shared by all services. -/
structure DB where
  customers : List Customer
  goods : List Good
  reviews : List Review
  purchases : List Purchase
deriving DecidableEq

/-- The `CHECK` constraints of the `Customers` table in
`create_ecommerce.py`: `Age > 0`, `Gender IN (...)`,
`MaritalStatus IN (...)`, `WalletBalance >= 0.0`. -/
def customerRowOk (c : Customer) : Bool :=
  decide (0 < c.age)
  && (c.gender == "Male" || c.gender == "Female" || c.gender == "Other")
  && (c.maritalStatus == "Single" || c.maritalStatus == "Married"
      || c.maritalStatus == "Divorced" || c.maritalStatus == "Widowed")
  && decide ((0 : ℚ) ≤ c.walletBalance)

/-- The `CHECK` constraints of the `Goods` table:
`PricePerItem > 0.0`, `StockCount >= 0`, `Category IN (...)`. -/
def goodRowOk (g : Good) : Bool :=
  (g.category == "Food" || g.category == "Clothes"
      || g.category == "Accessories" || g.category == "Electronics")
  && decide ((0 : ℚ) < g.pricePerItem)
  && decide ((0 : Int) ≤ g.stockCount)

/-- The `CHECK` constraints of the `HistoricalPurchases` table:
`Quantity > 0`, `TotalAmount > 0.0`. -/
def purchaseRowOk (p : Purchase) : Bool :=
  decide ((0 : Int) < p.quantity) && decide ((0 : ℚ) < p.totalAmount)

/-- `UPDATE Customers SET ... WHERE p`: every matching row is rewritten by
`f`; if any rewritten row violates the table's `CHECK` constraints the
statement raises `IntegrityError` and nothing is changed (`none`). -/
def sqlUpdateCustomers (p : Customer → Bool) (f : Customer → Customer)
    (db : DB) : Option DB :=
  if db.customers.all (fun c => !p c || customerRowOk (f c)) then
    some { db with customers := db.customers.map (fun c => if p c then f c else c) }
  else
    none

/-- `UPDATE Goods SET ... WHERE p`, with the `Goods` `CHECK` constraints. -/
def sqlUpdateGoods (p : Good → Bool) (f : Good → Good) (db : DB) : Option DB :=
  if db.goods.all (fun g => !p g || goodRowOk (f g)) then
    some { db with goods := db.goods.map (fun g => if p g then f g else g) }
  else
    none

/-- `INSERT INTO HistoricalPurchases`, with its `CHECK` constraints. -/
def sqlInsertPurchase (p : Purchase) (db : DB) : Option DB :=
  if purchaseRowOk p then some { db with purchases := db.purchases ++ [p] }
  else none

/-- `SELECT ... FROM Customers WHERE Username = ?` (fetchone). -/
def findCustomer (db : DB) (u : String) : Option Customer :=
  db.customers.find? (fun c => c.username == u)

/-- `SELECT ... FROM Customers WHERE CustomerID = ?` (fetchone). -/
def findCustomerById (db : DB) (cid : Nat) : Option Customer :=
  db.customers.find? (fun c => c.customerId == cid)

/-- `SELECT ... FROM Goods WHERE Name = ?` (fetchone). -/
def findGoodByName (db : DB) (n : String) : Option Good :=
  db.goods.find? (fun g => g.name == n)

/-- `SELECT ... FROM Goods WHERE GoodID = ?` (fetchone). -/
def findGoodById (db : DB) (gid : Nat) : Option Good :=
  db.goods.find? (fun g => g.goodId == gid)

/-- `SELECT ... FROM Reviews WHERE ReviewID = ?` (fetchone). -/
def findReview (db : DB) (rid : Nat) : Option Review :=
  db.reviews.find? (fun r => r.reviewId == rid)

/-- Fresh `AUTOINCREMENT` id for a customer insert. -/
def nextCustomerId (db : DB) : Nat :=
  (db.customers.map (fun c => c.customerId)).foldr max 0 + 1

/-- Fresh `AUTOINCREMENT` id for a review insert. -/
def nextReviewId (db : DB) : Nat :=
  (db.reviews.map (fun r => r.reviewId)).foldr max 0 + 1

/-- One character of the username pattern `[a-zA-Z0-9_.-]`. -/
def validUsernameChar (ch : Char) : Bool :=
  ch.isAlpha || ch.isDigit || ch == '_' || ch == '.' || ch == '-'

/-- The pattern check `re.match(r"^[a-zA-Z0-9_.-]{3,20}$", username)`. -/
def matchesUsernamePattern (s : String) : Bool :=
  decide (3 ≤ s.length) && decide (s.length ≤ 20) && s.data.all validUsernameChar

/-- JSON payload of `POST /customers/register`; all seven fields are
required by the handler, `IsAdmin` defaults to `False`. -/
structure RegisterData where
  fullName : Option String
  username : Option String
  password : Option String
  age : Option Int
  address : Option String
  gender : Option String
  maritalStatus : Option String
  isAdmin : Option Bool

/-- Return sites of `register_customer`, with their HTTP statuses. -/
inductive RegisterResult where
  | missingField (field : String)
  | invalidUsername
  | usernameExists
  | adminExists
  | dbError
  | created
deriving DecidableEq

/-- HTTP status of each `register_customer` response. -/
def RegisterResult.statusCode : RegisterResult → Nat
  | .missingField _ => 400
  | .invalidUsername => 400
  | .usernameExists => 400
  | .adminExists => 400
  | .dbError => 500
  | .created => 201

/-- `register_customer` from `services/customers.py` (lines 109-157):
required-field loop, username pattern, username uniqueness pre-check,
single-admin pre-check when `IsAdmin` is requested, then the `INSERT`
with `WalletBalance = 0.0` (a `CHECK` violation on insert is the caught
`IntegrityError`, reported as a 500 database error). -/
def registerCustomer (d : RegisterData) (db : DB) : RegisterResult × DB :=
  match d.fullName with
  | none => (.missingField "FullName", db)
  | some fullName =>
  match d.username with
  | none => (.missingField "Username", db)
  | some username =>
  match d.password with
  | none => (.missingField "Password", db)
  | some password =>
  match d.age with
  | none => (.missingField "Age", db)
  | some age =>
  match d.address with
  | none => (.missingField "Address", db)
  | some address =>
  match d.gender with
  | none => (.missingField "Gender", db)
  | some gender =>
  match d.maritalStatus with
  | none => (.missingField "MaritalStatus", db)
  | some maritalStatus =>
  if !matchesUsernamePattern username then (.invalidUsername, db)
  else if (findCustomer db username).isSome then (.usernameExists, db)
  else
    let isAdminReq := d.isAdmin.getD false
    if isAdminReq && (db.customers.find? (fun c => c.isAdmin)).isSome then
      (.adminExists, db)
    else
      let row : Customer :=
        { customerId := nextCustomerId db, fullName, username, password,
          age, address, gender, maritalStatus,
          walletBalance := 0, isAdmin := isAdminReq }
      if customerRowOk row then
        (.created, { db with customers := db.customers ++ [row] })
      else
        (.dbError, db)

/-- Partial field map accepted by `PUT /customers/update/{username}`
(`update_customer` builds `SET k = ?` from whatever keys the JSON has). -/
structure UpdateData where
  fullName : Option String
  age : Option Int
  address : Option String
  gender : Option String
  maritalStatus : Option String
  walletBalance : Option ℚ
  isAdmin : Option Bool

/-- Apply the partial field map to one row. -/
def applyUpdate (u : UpdateData) (c : Customer) : Customer :=
  { c with
    fullName := u.fullName.getD c.fullName
    age := u.age.getD c.age
    address := u.address.getD c.address
    gender := u.gender.getD c.gender
    maritalStatus := u.maritalStatus.getD c.maritalStatus
    walletBalance := u.walletBalance.getD c.walletBalance
    isAdmin := u.isAdmin.getD c.isAdmin }

/-- Return sites of `update_customer`. The handler has no try/except, so a
`CHECK` violation escapes as an unhandled server error (500) with the
statement rolled back. -/
inductive UpdateResult where
  | unauthorized
  | integrityViolation
  | updated
deriving DecidableEq

/-- HTTP status of each `update_customer` response. -/
def UpdateResult.statusCode : UpdateResult → Nat
  | .unauthorized => 403
  | .integrityViolation => 500
  | .updated => 200

/-- `update_customer` from `services/customers.py` (lines 227-260):
token identity must equal the path username, then
`UPDATE Customers SET <fields> WHERE Username = ?` with no existence
check — zero matched rows still answer 200. -/
def updateCustomer (username tokenUser : String) (u : UpdateData)
    (db : DB) : UpdateResult × DB :=
  if username ≠ tokenUser then (.unauthorized, db)
  else
    match sqlUpdateCustomers (fun c => c.username == username) (applyUpdate u) db with
    | none => (.integrityViolation, db)
    | some db1 => (.updated, db1)

/-- Return sites of `delete_customer`. -/
inductive DeleteResult where
  | unauthorized
  | notFound
  | deleted
deriving DecidableEq

/-- HTTP status of each `delete_customer` response. -/
def DeleteResult.statusCode : DeleteResult → Nat
  | .unauthorized => 403
  | .notFound => 404
  | .deleted => 200

/-- `delete_customer` from `services/customers.py` (lines 192-225). -/
def deleteCustomer (username tokenUser : String) (db : DB) : DeleteResult × DB :=
  if username ≠ tokenUser then (.unauthorized, db)
  else
    match findCustomer db username with
    | none => (.notFound, db)
    | some _ =>
        (.deleted, { db with customers := db.customers.filter (fun c => !(c.username == username)) })

/-- The JSON `Amount` value as the wallet handlers see it: a JSON number,
a string `float()` accepts, or a string `float()` rejects with
`ValueError`. -/
inductive AmountVal where
  | num (q : ℚ)
  | numStr (q : ℚ)
  | badStr
deriving DecidableEq

/-- Python `float(value)` on an `Amount` value: `none` is the
`ValueError` branch. -/
def floatOf : AmountVal → Option ℚ
  | .num q => some q
  | .numStr q => some q
  | .badStr => none

/-- Return sites of `charge_wallet` / `deduct_wallet`. `serverError`
models an `IntegrityError` escaping these handlers (they have no
try/except around the `UPDATE`). -/
inductive WalletResult where
  | unauthorized
  | missingAmount
  | notPositive
  | notNumeric
  | notFound
  | insufficientBalance
  | serverError
  | charged (amount : ℚ)
  | deducted (amount : ℚ)
deriving DecidableEq

/-- HTTP status of each wallet response. -/
def WalletResult.statusCode : WalletResult → Nat
  | .unauthorized => 403
  | .missingAmount => 400
  | .notPositive => 400
  | .notNumeric => 400
  | .notFound => 404
  | .insufficientBalance => 400
  | .serverError => 500
  | .charged _ => 200
  | .deducted _ => 200

/-- The responses the handlers produce for a missing, non-numeric or
non-positive `Amount` (all HTTP 400). -/
def WalletResult.isAmountError : WalletResult → Bool
  | .missingAmount => true
  | .notPositive => true
  | .notNumeric => true
  | _ => false

/-- `charge_wallet` from `services/customers.py` (lines 291-335):
authorization, `Amount` presence, `float()` parse, positivity, then
`UPDATE Customers SET WalletBalance = WalletBalance + ? WHERE Username = ?`
with no existence check — zero matched rows still answer 200. -/
def chargeWallet (username tokenUser : String) (amount : Option AmountVal)
    (db : DB) : WalletResult × DB :=
  if username ≠ tokenUser then (.unauthorized, db)
  else
    match amount with
    | none => (.missingAmount, db)
    | some a =>
      match floatOf a with
      | none => (.notNumeric, db)
      | some q =>
        if q ≤ 0 then (.notPositive, db)
        else
          match sqlUpdateCustomers (fun c => c.username == username)
              (fun c => { c with walletBalance := c.walletBalance + q }) db with
          | none => (.serverError, db)
          | some db1 => (.charged q, db1)

/-- `deduct_wallet` from `services/customers.py` (lines 337-388):
authorization, `Amount` presence, `float()` parse, positivity, then the
existence check (404), then the balance check, then the debit `UPDATE`. -/
def deductWallet (username tokenUser : String) (amount : Option AmountVal)
    (db : DB) : WalletResult × DB :=
  if username ≠ tokenUser then (.unauthorized, db)
  else
    match amount with
    | none => (.missingAmount, db)
    | some a =>
      match floatOf a with
      | none => (.notNumeric, db)
      | some q =>
        if q ≤ 0 then (.notPositive, db)
        else
          match findCustomer db username with
          | none => (.notFound, db)
          | some user =>
            if user.walletBalance ≥ q then
              match sqlUpdateCustomers (fun c => c.username == username)
                  (fun c => { c with walletBalance := c.walletBalance - q }) db with
              | none => (.serverError, db)
              | some db1 => (.deducted q, db1)
            else
              (.insufficientBalance, db)

/-- JSON payload of `POST /sales/sale`. -/
structure SaleData where
  username : Option String
  goodName : Option String
  quantity : Option Int

/-- Return sites of `make_sale`, with the payloads the messages report. -/
inductive SaleResult where
  | missingField (field : String)
  | invalidQuantity
  | goodNotFound
  | insufficientStock (available : Int)
  | customerNotFound
  | insufficientFunds (balance : ℚ)
  | integrityFailure
  | success (totalCost : ℚ)
deriving DecidableEq

/-- HTTP status of each `make_sale` response. -/
def SaleResult.statusCode : SaleResult → Nat
  | .missingField _ => 400
  | .invalidQuantity => 400
  | .goodNotFound => 404
  | .insufficientStock _ => 400
  | .customerNotFound => 404
  | .insufficientFunds _ => 400
  | .integrityFailure => 500
  | .success _ => 200

/-- The responses produced by a failed validation check in `make_sale`
(before any mutation is attempted). -/
def SaleResult.isCheckFailure : SaleResult → Bool
  | .missingField _ => true
  | .invalidQuantity => true
  | .goodNotFound => true
  | .insufficientStock _ => true
  | .customerNotFound => true
  | .insufficientFunds _ => true
  | _ => false

/-- `make_sale` from `services/sales.py` (lines 101-166), with its exact
check order: required fields, `quantity > 0`, good by name (404), stock
(`stock_count < quantity`, 400), `total_cost = price_per_item * quantity`,
customer by username (404), funds, then three separately committed SQL
statements: the wallet debit, the stock decrement, and the
`HistoricalPurchases` insert. Each `execute_query(..., commit=True)` opens
its own sqlite connection and commits on its own, so its effect is durable
as soon as it runs; the returned list holds the successive committed
states in order. A failing statement raises `sqlite3.IntegrityError`,
which the handler catches and reports as a 500 — the states already
committed stay. -/
def makeSale (d : SaleData) (db : DB) : SaleResult × List DB :=
  match d.username with
  | none => (.missingField "Username", [])
  | some username =>
  match d.goodName with
  | none => (.missingField "GoodName", [])
  | some goodName =>
  match d.quantity with
  | none => (.missingField "Quantity", [])
  | some quantity =>
  if quantity ≤ 0 then (.invalidQuantity, [])
  else
    match findGoodByName db goodName with
    | none => (.goodNotFound, [])
    | some good =>
      if good.stockCount < quantity then (.insufficientStock good.stockCount, [])
      else
        let totalCost := good.pricePerItem * quantity
        match findCustomer db username with
        | none => (.customerNotFound, [])
        | some customer =>
          if customer.walletBalance < totalCost then
            (.insufficientFunds customer.walletBalance, [])
          else
            match sqlUpdateCustomers (fun c => c.customerId == customer.customerId)
                (fun c => { c with walletBalance := c.walletBalance - totalCost }) db with
            | none => (.integrityFailure, [])
            | some db1 =>
              match sqlUpdateGoods (fun g => g.goodId == good.goodId)
                  (fun g => { g with stockCount := g.stockCount - quantity }) db1 with
              | none => (.integrityFailure, [db1])
              | some db2 =>
                match sqlInsertPurchase
                    { customerId := customer.customerId, goodId := good.goodId,
                      quantity := quantity, totalAmount := totalCost } db2 with
                | none => (.integrityFailure, [db1, db2])
                | some db3 => (.success totalCost, [db1, db2, db3])

/-- The response of `make_sale` together with the state after the handler
returns (the last committed state, or the initial state when nothing was
committed). -/
def makeSaleRun (d : SaleData) (db : DB) : SaleResult × DB :=
  ((makeSale d db).1, ((makeSale d db).2).getLastD db)

/-- The durable states a `make_sale` call can leave behind: the initial
state (nothing committed yet) and every prefix of committed statements.
Because each statement commits in its own connection, execution stopping
after any of them (a crash, or a later statement failing) leaves exactly
one of these states in the database. -/
def saleDurableStates (d : SaleData) (db : DB) : List DB :=
  db :: (makeSale d db).2

/-- JSON payload of `POST /reviews/submit`. -/
structure ReviewData where
  customerId : Option Nat
  goodId : Option Nat
  rating : Option Int
  comment : Option String

/-- `get_username_from_customer_id` from `services/reviews.py`. -/
def usernameFromCustomerId (db : DB) (cid : Nat) : Option String :=
  (db.customers.find? (fun c => c.customerId == cid)).map (fun c => c.username)

/-- Return sites of `submit_review`. -/
inductive SubmitResult where
  | missingCustomerId
  | unauthorized
  | missingField (field : String)
  | invalidCustomer
  | invalidGood
  | invalidRating
  | submitted
deriving DecidableEq

/-- HTTP status of each `submit_review` response. -/
def SubmitResult.statusCode : SubmitResult → Nat
  | .missingCustomerId => 400
  | .unauthorized => 403
  | .missingField _ => 400
  | .invalidCustomer => 400
  | .invalidGood => 400
  | .invalidRating => 400
  | .submitted => 201

/-- `submit_review` from `services/reviews.py` (lines 48-108): the
`CustomerID`-based authorization gate (the username resolved from
`CustomerID` must equal the token identity), the required-field loop,
customer existence (400), good existence (400), `1 <= Rating <= 5`
(400), then the `INSERT` with `Status = "Pending"`, `Upvotes = 0`,
`Downvotes = 0`. -/
def submitReview (tokenUser : String) (d : ReviewData) (db : DB) :
    SubmitResult × DB :=
  match d.customerId with
  | none => (.missingCustomerId, db)
  | some cid =>
    if usernameFromCustomerId db cid ≠ some tokenUser then (.unauthorized, db)
    else
      match d.goodId with
      | none => (.missingField "GoodID", db)
      | some gid =>
      match d.rating with
      | none => (.missingField "Rating", db)
      | some rating =>
      if (findCustomerById db cid).isNone then (.invalidCustomer, db)
      else if (findGoodById db gid).isNone then (.invalidGood, db)
      else if !(decide (1 ≤ rating) && decide (rating ≤ 5)) then (.invalidRating, db)
      else
        (.submitted,
          { db with reviews := db.reviews ++
              [{ reviewId := nextReviewId db, customerId := cid, goodId := gid,
                 rating, comment := d.comment.getD "", status := "Pending",
                 upvotes := 0, downvotes := 0 }] })

/-- JSON payload of `PUT /reviews/moderate/{reviewId}`. -/
structure ModerateData where
  customerId : Option Nat
  status : Option String

/-- Return sites of `moderate_review`. -/
inductive ModerateResult where
  | missingFields
  | invalidStatus
  | customerNotFound
  | forbidden
  | updated
deriving DecidableEq

/-- HTTP status of each `moderate_review` response. -/
def ModerateResult.statusCode : ModerateResult → Nat
  | .missingFields => 400
  | .invalidStatus => 400
  | .customerNotFound => 404
  | .forbidden => 403
  | .updated => 200

/-- `moderate_review` from `services/reviews.py` (lines 334-394):
required fields, status whitelist, acting customer exists (404) and is
an admin (403), then `UPDATE Reviews SET Status = ? WHERE ReviewID = ?`
with no existence check on the review — zero matched rows still answer
200 "Review status updated successfully". -/
def moderateReview (rid : Nat) (d : ModerateData) (db : DB) :
    ModerateResult × DB :=
  match d.customerId, d.status with
  | none, _ => (.missingFields, db)
  | _, none => (.missingFields, db)
  | some cid, some status =>
    if !(status == "Pending" || status == "Accepted" || status == "Rejected") then
      (.invalidStatus, db)
    else
      match findCustomerById db cid with
      | none => (.customerNotFound, db)
      | some c =>
        if !c.isAdmin then (.forbidden, db)
        else
          (.updated,
            { db with reviews := (db.reviews.map
                (fun r => if r.reviewId == rid then { r with status := status } else r)) })

/-- Return sites of `upvote_review` / `downvote_review`. -/
inductive VoteResult where
  | notFound
  | voted
deriving DecidableEq

/-- HTTP status of each vote response. -/
def VoteResult.statusCode : VoteResult → Nat
  | .notFound => 404
  | .voted => 200

/-- `upvote_review` from `services/reviews.py` (lines 440-470): existence
check (404), then `UPDATE Reviews SET Upvotes = Upvotes + 1
WHERE ReviewID = ?`. -/
def upvoteReview (rid : Nat) (db : DB) : VoteResult × DB :=
  match findReview db rid with
  | none => (.notFound, db)
  | some _ =>
      (.voted,
        { db with reviews := (db.reviews.map
            (fun r => if r.reviewId == rid then { r with upvotes := r.upvotes + 1 } else r)) })

/-- The state after calling `upvote_review` `n` times in a row on the
same review id. -/
def upvoteTimes (n : Nat) (rid : Nat) (db : DB) : DB :=
  match n with
  | 0 => db
  | n + 1 => (upvoteReview rid (upvoteTimes n rid db)).2

/-- Number of customers whose `IsAdmin` flag is set. -/
def countAdmins (db : DB) : Nat :=
  (db.customers.filter (fun c => c.isAdmin)).length

/-- The spec's global invariant: at most one customer has `isAdmin = true`. -/
def atMostOneAdmin (db : DB) : Prop :=
  countAdmins db ≤ 1

instance : DecidablePred atMostOneAdmin := fun db =>
  inferInstanceAs (Decidable (countAdmins db ≤ 1))

/-- The spec's wallet invariant: every stored balance is nonnegative. -/
def walletsNonneg (db : DB) : Prop :=
  ∀ c ∈ db.customers, 0 ≤ c.walletBalance

instance : DecidablePred walletsNonneg := fun db =>
  inferInstanceAs (Decidable (∀ c ∈ db.customers, 0 ≤ c.walletBalance))

/-- Balance of the (first) customer with the given username. -/
def walletOf (db : DB) (u : String) : Option ℚ :=
  (findCustomer db u).map (fun c => c.walletBalance)

/-- Stock of the (first) good with the given name. -/
def stockOf (db : DB) (n : String) : Option Int :=
  (findGoodByName db n).map (fun g => g.stockCount)

/-- Upvote count of the review with the given id. -/
def upvotesOf (db : DB) (rid : Nat) : Option Int :=
  (findReview db rid).map (fun r => r.upvotes)

/-- Schema-level well-formedness of a database state: every stored row
satisfies its table's `CHECK` constraints and usernames are unique (the
`UNIQUE` constraint on `Customers.Username`). -/
def dbWellFormed (db : DB) : Prop :=
  (∀ c ∈ db.customers, customerRowOk c) ∧
  db.customers.Pairwise (fun a b => a.username ≠ b.username)

instance : DecidablePred dbWellFormed := fun _ => by
  unfold dbWellFormed; infer_instance

/-! ### General list lemmas about guarded updates -/

theorem map_guard_eq_of_no_match {α : Type} (l : List α) (p : α → Bool)
    (f : α → α) (h : ∀ x ∈ l, p x = false) :
    l.map (fun x => if p x then f x else x) = l := by
  induction l with
  | nil => rfl
  | cons a t ih =>
      have ha := h a (List.mem_cons_self a t)
      simp [ha, ih (fun x hx => h x (List.mem_cons_of_mem a hx))]

theorem find?_map_guard {α : Type} (l : List α) (p : α → Bool) (f : α → α)
    (hf : ∀ x, p x = true → p (f x) = true) (c : α) (h : l.find? p = some c) :
    (l.map (fun x => if p x then f x else x)).find? p = some (f c) := by
  induction l with
  | nil => simp at h
  | cons a t ih =>
      by_cases hpa : p a = true
      · rw [List.find?_cons_of_pos _ hpa] at h
        cases h
        simp only [List.map_cons, if_pos hpa]
        rw [List.find?_cons_of_pos _ (hf _ hpa)]
      · have hpa' : p a = false := by simpa using hpa
        rw [List.find?_cons_of_neg _ (by simp [hpa'])] at h
        simp only [List.map_cons, hpa', if_neg, Bool.false_eq_true, not_false_iff]
        rw [List.find?_cons_of_neg _ (by simp [hpa'])]
        exact ih h

theorem eq_of_match_unique {α : Type} {l : List α} {key : α → String}
    (hp : l.Pairwise (fun a b => key a ≠ key b)) {u : String} {c : α}
    (hfind : l.find? (fun x => key x == u) = some c)
    {x : α} (hx : x ∈ l) (hxk : (key x == u) = true) : x = c := by
  induction l with
  | nil => simp at hfind
  | cons a t ih =>
      rw [List.pairwise_cons] at hp
      by_cases hpa : (key a == u) = true
      · simp only [List.find?_cons, hpa] at hfind
        have hac : a = c := by simpa using hfind
        subst hac
        rcases List.mem_cons.mp hx with rfl | hxt
        · rfl
        · exfalso
          exact hp.1 x hxt (by
            have h1 : key a = u := by simpa using hpa
            have h2 : key x = u := by simpa using hxk
            rw [h1, h2])
      · have hpa' : (key a == u) = false := by simpa using hpa
        simp only [List.find?_cons, hpa'] at hfind
        rcases List.mem_cons.mp hx with rfl | hxt
        · exact absurd hxk (by simp [hpa'])
        · exact ih hp.2 hfind hxt

/-! ### Facts about the row constraints and guarded SQL updates -/

theorem customerRowOk_wallet {c : Customer} (h : customerRowOk c = true) :
    0 ≤ c.walletBalance := by
  simp only [customerRowOk, Bool.and_eq_true, decide_eq_true_eq] at h
  exact h.2

theorem customerRowOk_setWallet {c : Customer} (h : customerRowOk c = true)
    {w : ℚ} (hw : 0 ≤ w) : customerRowOk { c with walletBalance := w } = true := by
  simp only [customerRowOk, Bool.and_eq_true, decide_eq_true_eq] at h ⊢
  exact ⟨⟨h.1.1, h.1.2⟩, hw⟩

theorem sqlUpdateCustomers_no_match {p : Customer → Bool} {f : Customer → Customer}
    {db : DB} (h : ∀ c ∈ db.customers, p c = false) :
    sqlUpdateCustomers p f db = some db := by
  unfold sqlUpdateCustomers
  rw [if_pos, map_guard_eq_of_no_match _ _ _ h]
  rw [List.all_eq_true]
  intro c hc
  simp [h c hc]

theorem sqlUpdateCustomers_goods {p : Customer → Bool} {f : Customer → Customer}
    {db db1 : DB} (h : sqlUpdateCustomers p f db = some db1) :
    db1.goods = db.goods ∧ db1.reviews = db.reviews ∧ db1.purchases = db.purchases := by
  unfold sqlUpdateCustomers at h
  split at h
  · cases h; exact ⟨rfl, rfl, rfl⟩
  · cases h

theorem sqlUpdateCustomers_walletsNonneg {p : Customer → Bool}
    {f : Customer → Customer} {db db1 : DB}
    (h : sqlUpdateCustomers p f db = some db1) (hw : walletsNonneg db) :
    walletsNonneg db1 := by
  unfold sqlUpdateCustomers at h
  split at h
  case isTrue hall =>
    cases h
    intro c hc
    simp only [List.mem_map] at hc
    obtain ⟨a, ha, rfl⟩ := hc
    by_cases hpa : p a = true
    · rw [List.all_eq_true] at hall
      have := hall a ha
      rw [hpa] at this
      simp only [Bool.not_true, Bool.false_or] at this
      simp only [if_pos hpa]
      exact customerRowOk_wallet this
    · simp only [if_neg hpa]
      exact hw a ha
  case isFalse => cases h

theorem sqlUpdateGoods_customers {p : Good → Bool} {f : Good → Good}
    {db db1 : DB} (h : sqlUpdateGoods p f db = some db1) :
    db1.customers = db.customers ∧ db1.reviews = db.reviews ∧
      db1.purchases = db.purchases := by
  unfold sqlUpdateGoods at h
  split at h
  · cases h; exact ⟨rfl, rfl, rfl⟩
  · cases h

theorem sqlInsertPurchase_customers {p : Purchase} {db db1 : DB}
    (h : sqlInsertPurchase p db = some db1) :
    db1.customers = db.customers ∧ db1.goods = db.goods ∧
      db1.reviews = db.reviews := by
  unfold sqlInsertPurchase at h
  split at h
  · cases h; exact ⟨rfl, rfl, rfl⟩
  · cases h

/-! ### Concrete fixtures used by witnesses and counterexamples -/

/-- A schema-valid admin customer. -/
def aliceRow : Customer :=
  { customerId := 1, fullName := "Alice A", username := "alice",
    password := "pw1", age := 30, address := "1 First St", gender := "Female",
    maritalStatus := "Single", walletBalance := 100, isAdmin := true }

/-- A schema-valid non-admin customer. -/
def bobRow : Customer :=
  { customerId := 2, fullName := "Bob B", username := "bob",
    password := "pw2", age := 25, address := "2 Second St", gender := "Male",
    maritalStatus := "Single", walletBalance := 50, isAdmin := false }

/-- A schema-valid good with plenty of stock. -/
def laptopRow : Good :=
  { goodId := 1, name := "Laptop", category := "Electronics",
    pricePerItem := 40, description := "A laptop", stockCount := 10 }

/-- A schema-valid good with stock 1. -/
def mouseRow : Good :=
  { goodId := 2, name := "Mouse", category := "Electronics",
    pricePerItem := 5, description := "A mouse", stockCount := 1 }

/-- A review by Bob on the laptop. -/
def reviewRow : Review :=
  { reviewId := 1, customerId := 2, goodId := 1, rating := 4,
    comment := "nice", status := "Accepted", upvotes := 3, downvotes := 1 }

/-- Base fixture state: Alice (admin) and Bob, two goods, no reviews,
no purchases. -/
def baseDB : DB :=
  { customers := [aliceRow, bobRow], goods := [laptopRow, mouseRow],
    reviews := [], purchases := [] }

/-- Fixture state with one review. -/
def reviewDB : DB :=
  { customers := [aliceRow, bobRow], goods := [laptopRow, mouseRow],
    reviews := [reviewRow], purchases := [] }

/-! ### Claim theorems -/

/-- C10: `deduct_wallet` validates the amount before checking that the
target customer exists: a missing, non-numeric or non-positive `Amount`
yields the 400 amount error even when the customer is absent, and only a
valid positive amount with an absent customer yields the 404, in all
cases leaving the state unchanged. -/
theorem claim_C10 (db : DB) (u : String) (amount : Option AmountVal) :
    (amount = none → deductWallet u u amount db = (.missingAmount, db)) ∧
    (∀ a, amount = some a → floatOf a = none →
      deductWallet u u amount db = (.notNumeric, db)) ∧
    (∀ a q, amount = some a → floatOf a = some q → q ≤ 0 →
      deductWallet u u amount db = (.notPositive, db)) ∧
    (∀ a q, amount = some a → floatOf a = some q → 0 < q →
      findCustomer db u = none →
      deductWallet u u amount db = (.notFound, db)) ∧
    WalletResult.missingAmount.isAmountError = true ∧
    WalletResult.notNumeric.isAmountError = true ∧
    WalletResult.notPositive.isAmountError = true ∧
    WalletResult.missingAmount.statusCode = 400 ∧
    WalletResult.notNumeric.statusCode = 400 ∧
    WalletResult.notPositive.statusCode = 400 ∧
    WalletResult.notFound.statusCode = 404 := by
  refine ⟨?_, ?_, ?_, ?_, rfl, rfl, rfl, rfl, rfl, rfl, rfl⟩
  · rintro rfl
    simp [deductWallet]
  · rintro a rfl hf
    simp [deductWallet, hf]
  · rintro a q rfl hf hq
    simp [deductWallet, hf, hq]
  · rintro a q rfl hf hq hnone
    simp [deductWallet, hf, hnone, not_le.mpr hq]

/-- C10 witness: the four branches at concrete inputs. -/
theorem claim_C10_witness :
    deductWallet "ghost" "ghost" none baseDB = (.missingAmount, baseDB) ∧
    deductWallet "ghost" "ghost" (some .badStr) baseDB = (.notNumeric, baseDB) ∧
    deductWallet "ghost" "ghost" (some (.num 0)) baseDB = (.notPositive, baseDB) ∧
    deductWallet "ghost" "ghost" (some (.num 5)) baseDB = (.notFound, baseDB) :=
  ⟨(claim_C10 baseDB "ghost" none).1 rfl,
   (claim_C10 baseDB "ghost" (some .badStr)).2.1 .badStr rfl rfl,
   (claim_C10 baseDB "ghost" (some (.num 0))).2.2.1 (.num 0) 0 rfl rfl (by decide),
   (claim_C10 baseDB "ghost" (some (.num 5))).2.2.2.1 (.num 5) 5 rfl rfl (by decide) rfl⟩

/-- C5 counterexample: `charge_wallet` called for a username that does not
exist (with a token for that same identity and a valid positive amount)
answers 200 "charged successfully" with the state unchanged — not the
404 error the claim requires; the handler has no not-found return site at
all. -/
theorem claim_C5_counterexample :
    findCustomer baseDB "ghost" = none ∧
    chargeWallet "ghost" "ghost" (some (.num 5)) baseDB = (.charged 5, baseDB) ∧
    (WalletResult.charged 5).statusCode = 200 ∧
    (WalletResult.charged 5).statusCode ≠ 404 := by
  refine ⟨rfl, ?_, rfl, by decide⟩
  decide

/-- C5 amended: `charge_wallet` never checks that the target exists.
For any state in which the username is absent, an authorized request with
a valid positive amount is answered 200 "charged successfully" while
nothing is mutated. -/
theorem claim_C5_amended (db : DB) (u : String) (a : AmountVal) (q : ℚ)
    (hnone : findCustomer db u = none) (hq : floatOf a = some q)
    (hpos : 0 < q) :
    chargeWallet u u (some a) db = (.charged q, db) ∧
    (WalletResult.charged q).statusCode = 200 := by
  refine ⟨?_, rfl⟩
  have hall : ∀ c ∈ db.customers, (c.username == u) = false := by
    intro c hc
    have := List.find?_eq_none.mp hnone c hc
    simpa using this
  simp [chargeWallet, hq, not_le.mpr hpos,
    sqlUpdateCustomers_no_match hall]

/-- C5 amended witness. -/
theorem claim_C5_amended_witness :
    chargeWallet "ghost" "ghost" (some (.num 5)) baseDB = (.charged 5, baseDB) ∧
    (WalletResult.charged 5).statusCode = 200 :=
  claim_C5_amended baseDB "ghost" (.num 5) 5 rfl rfl (by decide)

/-- C9: `moderate_review` called by an existing admin with a whitelisted
status but a review id that matches no review answers 200 "Review status
updated successfully" and changes nothing — the missing review is not
reported as a 404. -/
theorem claim_C9 (db : DB) (rid cid : Nat) (status : String) (c : Customer)
    (hc : findCustomerById db cid = some c) (hadmin : c.isAdmin = true)
    (hstatus : (status == "Pending" || status == "Accepted" || status == "Rejected") = true)
    (habsent : ∀ r ∈ db.reviews, (r.reviewId == rid) = false) :
    moderateReview rid ⟨some cid, some status⟩ db = (.updated, db) ∧
    ModerateResult.updated.statusCode = 200 := by
  refine ⟨?_, rfl⟩
  simp only [moderateReview, hstatus, hc, hadmin, Bool.not_true,
    Bool.false_eq_true, if_false]
  rw [map_guard_eq_of_no_match _ _ _ habsent]

/-- C9 witness: Alice is the admin, review id 99 matches nothing. -/
theorem claim_C9_witness :
    moderateReview 99 ⟨some 1, some "Accepted"⟩ baseDB = (.updated, baseDB) ∧
    ModerateResult.updated.statusCode = 200 :=
  claim_C9 baseDB 99 1 "Accepted" aliceRow rfl rfl rfl (by decide)

/-- C6: for an existing customer with balance `b` and an authorized
`deduct_wallet` request with amount `a`: non-numeric or non-positive
amounts fail with the 400 amount error; a positive amount fails with
`InsufficientBalance` exactly when `a > b`, leaving the state unchanged;
otherwise it succeeds and the stored balance becomes `b - a`.
(The state is assumed schema-valid: every row passes its `CHECK`
constraints and usernames are unique, as the `Customers` schema
enforces.) -/
theorem claim_C6 (db : DB) (u : String) (a : AmountVal) (c : Customer)
    (hwf : dbWellFormed db) (hc : findCustomer db u = some c) :
    (floatOf a = none → deductWallet u u (some a) db = (.notNumeric, db)) ∧
    (∀ q, floatOf a = some q → q ≤ 0 →
      deductWallet u u (some a) db = (.notPositive, db)) ∧
    (∀ q, floatOf a = some q → 0 < q → c.walletBalance < q →
      deductWallet u u (some a) db = (.insufficientBalance, db)) ∧
    (∀ q, floatOf a = some q → 0 < q → q ≤ c.walletBalance →
      (deductWallet u u (some a) db).1 = .deducted q ∧
      walletOf (deductWallet u u (some a) db).2 u = some (c.walletBalance - q) ∧
      WalletResult.statusCode (.deducted q) = 200) ∧
    WalletResult.notNumeric.isAmountError = true ∧
    WalletResult.notPositive.isAmountError = true ∧
    WalletResult.insufficientBalance.statusCode = 400 := by
  obtain ⟨hok, huniq⟩ := hwf
  have hc' : db.customers.find? (fun x => x.username == u) = some c := hc
  have hcmem : c ∈ db.customers := List.mem_of_find?_eq_some hc'
  refine ⟨?_, ?_, ?_, ?_, rfl, rfl, rfl⟩
  · intro hf
    simp [deductWallet, hf]
  · intro q hf hq
    simp [deductWallet, hf, hq]
  · intro q hf hq hlt
    simp [deductWallet, hf, not_le.mpr hq, hc, ge_iff_le, not_le.mpr hlt]
  · intro q hf hq hle
    have hall : db.customers.all
        (fun x => !(x.username == u)
          || customerRowOk { x with walletBalance := x.walletBalance - q }) = true := by
      rw [List.all_eq_true]
      intro x hx
      by_cases hpx : (x.username == u) = true
      · have hxc : x = c := eq_of_match_unique huniq hc' hx hpx
        subst hxc
        simp [hpx, customerRowOk_setWallet (hok x hx) (sub_nonneg.mpr hle)]
      · have hpx' : (x.username == u) = false := by simpa using hpx
        simp [hpx']
    have hupd : sqlUpdateCustomers (fun x => x.username == u)
        (fun x => { x with walletBalance := x.walletBalance - q }) db =
        some { db with customers := (db.customers.map
          (fun x => if x.username == u then
            { x with walletBalance := x.walletBalance - q } else x)) } := by
      unfold sqlUpdateCustomers
      rw [if_pos hall]
    have hfind2 : (db.customers.map (fun x => if x.username == u then
          { x with walletBalance := x.walletBalance - q } else x)).find?
          (fun x => x.username == u) =
        some { c with walletBalance := c.walletBalance - q } :=
      find?_map_guard db.customers (fun x => x.username == u)
        (fun x => { x with walletBalance := x.walletBalance - q })
        (fun x h => h) c hc'
    have hres : (deductWallet u u (some a) db).2 =
        { db with customers := (db.customers.map
          (fun x => if x.username == u then
            { x with walletBalance := x.walletBalance - q } else x)) } := by
      simp [deductWallet, hf, not_le.mpr hq, hc, ge_iff_le, hle, hupd]
    refine ⟨?_, ?_, rfl⟩
    · simp [deductWallet, hf, not_le.mpr hq, hc, ge_iff_le, hle, hupd]
    · rw [hres]
      unfold walletOf findCustomer
      dsimp only
      rw [hfind2]
      rfl

/-- C6 witness: Bob (balance 50) at amounts "bad", 60 and 20. -/
theorem claim_C6_witness :
    deductWallet "bob" "bob" (some .badStr) baseDB = (.notNumeric, baseDB) ∧
    deductWallet "bob" "bob" (some (.num 60)) baseDB = (.insufficientBalance, baseDB) ∧
    (deductWallet "bob" "bob" (some (.num 20)) baseDB).1 = .deducted 20 ∧
    walletOf (deductWallet "bob" "bob" (some (.num 20)) baseDB).2 "bob" =
      some (bobRow.walletBalance - 20) := by
  refine ⟨(claim_C6 baseDB "bob" .badStr bobRow (by decide) rfl).1 rfl,
    (claim_C6 baseDB "bob" (.num 60) bobRow (by decide) rfl).2.2.1 60 rfl
      (by decide) (by decide),
    ((claim_C6 baseDB "bob" (.num 20) bobRow (by decide) rfl).2.2.2.1 20 rfl
      (by decide) (by decide)).1,
    ((claim_C6 baseDB "bob" (.num 20) bobRow (by decide) rfl).2.2.2.1 20 rfl
      (by decide) (by decide)).2.1⟩

theorem map_congr_id {α : Type} (l : List α) (f : α → α) (h : ∀ x, f x = x) :
    l.map f = l := by
  induction l with
  | nil => rfl
  | cons a t ih => simp [h a, ih]

theorem upvoteBump_zero (rid : Nat) (x : Review) :
    (if x.reviewId == rid then
      { x with upvotes := x.upvotes + ((0 : Nat) : Int) } else x) = x := by
  by_cases h : (x.reviewId == rid) = true
  · simp [h]
  · simp [h]

theorem upvoteBump_compose (rid : Nat) (n : Nat) (x : Review) :
    (fun y => if y.reviewId == rid then { y with upvotes := y.upvotes + 1 } else y)
      ((fun y => if y.reviewId == rid then
        { y with upvotes := y.upvotes + (n : Int) } else y) x) =
    (if x.reviewId == rid then
      { x with upvotes := x.upvotes + ((n + 1 : Nat) : Int) } else x) := by
  by_cases h : (x.reviewId == rid) = true
  · simp only [h, if_true]
    simp [add_assoc]
  · simp [h]

/-- C8: with a review present, calling `upvote_review` `n` times bumps
exactly that review's upvote counter by exactly `n` (every call answering
200 "voted") and changes nothing else — not the other reviews, nor the
customers, goods or purchases tables; with the review absent, the call
answers 404 and leaves the state unchanged. -/
theorem claim_C8 (db : DB) (rid : Nat) :
    (∀ r, findReview db rid = some r → ∀ n : Nat,
      (upvoteTimes n rid db).customers = db.customers ∧
      (upvoteTimes n rid db).goods = db.goods ∧
      (upvoteTimes n rid db).purchases = db.purchases ∧
      (upvoteTimes n rid db).reviews = db.reviews.map
        (fun x => if x.reviewId == rid then
          { x with upvotes := x.upvotes + (n : Int) } else x) ∧
      upvotesOf (upvoteTimes n rid db) rid = some (r.upvotes + (n : Int)) ∧
      (upvoteReview rid (upvoteTimes n rid db)).1 = .voted) ∧
    (findReview db rid = none →
      upvoteReview rid db = (.notFound, db) ∧
      VoteResult.notFound.statusCode = 404) := by
  constructor
  · intro r hr n
    have hr' : db.reviews.find? (fun x => x.reviewId == rid) = some r := hr
    induction n with
    | zero =>
        refine ⟨rfl, rfl, rfl, ?_, ?_, ?_⟩
        · exact (map_congr_id _ _ (upvoteBump_zero rid)).symm
        · simp [upvoteTimes, upvotesOf, hr]
        · simp [upvoteTimes, upvoteReview, hr]
    | succ n ih =>
        obtain ⟨hc, hg, hp, hrev, hupv, hvote⟩ := ih
        have hfindn : findReview (upvoteTimes n rid db) rid =
            some { r with upvotes := r.upvotes + (n : Int) } := by
          unfold findReview
          rw [hrev]
          exact find?_map_guard db.reviews (fun x => x.reviewId == rid)
            (fun x => { x with upvotes := x.upvotes + (n : Int) })
            (fun x h => h) r hr'
        have hstep : upvoteTimes (n + 1) rid db =
            { upvoteTimes n rid db with reviews :=
              ((upvoteTimes n rid db).reviews.map
                (fun y => if y.reviewId == rid then
                  { y with upvotes := y.upvotes + 1 } else y)) } := by
          show (upvoteReview rid (upvoteTimes n rid db)).2 = _
          simp [upvoteReview, hfindn]
        have hrev' : (upvoteTimes (n + 1) rid db).reviews = db.reviews.map
            (fun x => if x.reviewId == rid then
              { x with upvotes := x.upvotes + ((n + 1 : Nat) : Int) } else x) := by
          rw [hstep]
          show ((upvoteTimes n rid db).reviews.map _) = _
          rw [hrev, List.map_map]
          exact List.map_congr_left (fun x _ => upvoteBump_compose rid n x)
        have hfindn' : findReview (upvoteTimes (n + 1) rid db) rid =
            some { r with upvotes := r.upvotes + ((n + 1 : Nat) : Int) } := by
          unfold findReview
          rw [hrev']
          exact find?_map_guard db.reviews (fun x => x.reviewId == rid)
            (fun x => { x with upvotes := x.upvotes + ((n + 1 : Nat) : Int) })
            (fun x h => h) r hr'
        refine ⟨?_, ?_, ?_, hrev', ?_, ?_⟩
        · rw [hstep]; exact hc
        · rw [hstep]; exact hg
        · rw [hstep]; exact hp
        · simp [upvotesOf, hfindn']
        · simp [upvoteReview, hfindn']
  · intro hnone
    refine ⟨?_, rfl⟩
    simp [upvoteReview, hnone]

/-- C8 witness: four upvotes on review 1 (starting at 3 upvotes) yield 7;
upvoting the absent review 99 is a 404 no-op. -/
theorem claim_C8_witness :
    upvotesOf (upvoteTimes 4 1 reviewDB) 1 = some 7 ∧
    (upvoteTimes 4 1 reviewDB).customers = reviewDB.customers ∧
    upvoteReview 99 reviewDB = (.notFound, reviewDB) := by
  have h := (claim_C8 reviewDB 1).1 reviewRow rfl 4
  refine ⟨?_, h.1, ((claim_C8 reviewDB 99).2 rfl).1⟩
  have h5 := h.2.2.2.2.1
  simpa using h5

/-- C7: for a `submit_review` request that passes the token/CustomerID
authorization gate, an out-of-range rating or a missing referenced good
(and, vacuously under the gate, a missing referenced customer) is a 400
validation error with no review row created; on success exactly one
review row is appended and it starts with status "Pending", 0 upvotes and
0 downvotes. -/
theorem claim_C7 (db : DB) (tokenUser : String) (cid gid : Nat)
    (rating : Int) (comment : Option String)
    (hauth : usernameFromCustomerId db cid = some tokenUser) :
    ((¬(1 ≤ rating ∧ rating ≤ 5) ∨ findCustomerById db cid = none ∨
        findGoodById db gid = none) →
      (submitReview tokenUser ⟨some cid, some gid, some rating, comment⟩ db).1.statusCode = 400 ∧
      (submitReview tokenUser ⟨some cid, some gid, some rating, comment⟩ db).2 = db) ∧
    (∀ g, findGoodById db gid = some g → 1 ≤ rating → rating ≤ 5 →
      submitReview tokenUser ⟨some cid, some gid, some rating, comment⟩ db =
        (.submitted, { db with reviews := db.reviews ++
          [{ reviewId := nextReviewId db, customerId := cid, goodId := gid,
             rating := rating, comment := comment.getD "", status := "Pending",
             upvotes := 0, downvotes := 0 }] })) := by
  obtain ⟨c0, hc0, _⟩ := Option.map_eq_some'.mp hauth
  have hcust : (findCustomerById db cid).isNone = false := by
    unfold findCustomerById
    rw [hc0]
    rfl
  constructor
  · intro hbad
    rcases hbad with hr | hcnone | hgnone
    · by_cases hgood : (findGoodById db gid).isNone = true
      · constructor <;>
          simp [submitReview, SubmitResult.statusCode, hauth, hcust, hgood]
      · have hgood' : (findGoodById db gid).isNone = false :=
          Bool.eq_false_iff.mpr hgood
        have hr' : rating < 1 ∨ 5 < rating := by omega
        constructor <;>
          simp [submitReview, SubmitResult.statusCode, hauth, hcust, hgood', hr']
    · exfalso
      unfold findCustomerById at hcnone
      rw [hc0] at hcnone
      cases hcnone
    · have hgood : (findGoodById db gid).isNone = true := by
        rw [hgnone]
        rfl
      constructor <;>
        simp [submitReview, SubmitResult.statusCode, hauth, hcust, hgood]
  · intro g hg h1 h5
    have hgood : (findGoodById db gid).isNone = false := by
      rw [hg]
      rfl
    simp [submitReview, hauth, hcust, hgood, h1, h5]

/-- C7 witness: Bob submits a rating-6 review (400, no row) and a
rating-4 review (201, one Pending row with 0/0 votes). -/
theorem claim_C7_witness :
    (submitReview "bob" ⟨some 2, some 1, some 6, some "ok"⟩ reviewDB).1.statusCode = 400 ∧
    (submitReview "bob" ⟨some 2, some 1, some 6, some "ok"⟩ reviewDB).2 = reviewDB ∧
    submitReview "bob" ⟨some 2, some 1, some 4, some "ok"⟩ reviewDB =
      (.submitted, { reviewDB with reviews := reviewDB.reviews ++
        [{ reviewId := nextReviewId reviewDB, customerId := 2, goodId := 1,
           rating := 4, comment := "ok", status := "Pending",
           upvotes := 0, downvotes := 0 }] }) := by
  have h6 := (claim_C7 reviewDB "bob" 2 1 6 (some "ok") rfl).1 (Or.inl (by decide))
  have h4 := (claim_C7 reviewDB "bob" 2 1 4 (some "ok") rfl).2 laptopRow rfl
    (by decide) (by decide)
  exact ⟨h6.1, h6.2, h4⟩

/-- An `update_customer` field map that only sets `IsAdmin = true`. -/
def adminOnlyUpdate : UpdateData :=
  { fullName := none, age := none, address := none, gender := none,
    maritalStatus := none, walletBalance := none, isAdmin := some true }

/-- C2 counterexample: starting from a state with one admin (Alice) and a
non-admin (Bob), Bob's own authorized `update_customer` request with the
partial field map `IsAdmin = true` succeeds (200) and leaves two admins —
`update_customer` does not preserve the at-most-one-admin invariant. -/
theorem claim_C2_counterexample :
    atMostOneAdmin baseDB ∧
    (updateCustomer "bob" "bob" adminOnlyUpdate baseDB).1 = .updated ∧
    countAdmins (updateCustomer "bob" "bob" adminOnlyUpdate baseDB).2 = 2 ∧
    ¬ atMostOneAdmin (updateCustomer "bob" "bob" adminOnlyUpdate baseDB).2 := by
  refine ⟨by decide, by decide, by decide, ?_⟩
  intro h
  rw [show (updateCustomer "bob" "bob" adminOnlyUpdate baseDB).2 =
    { baseDB with customers := [aliceRow, { bobRow with isAdmin := true }] } from by decide] at h
  exact absurd h (by decide)

theorem countAdmins_of_no_admin {db : DB}
    (h : (db.customers.find? (fun c => c.isAdmin)).isSome = false) :
    countAdmins db = 0 := by
  have hnone : db.customers.find? (fun c => c.isAdmin) = none :=
    Option.not_isSome_iff_eq_none.mp (by simp [h])
  have hall := List.find?_eq_none.mp hnone
  unfold countAdmins
  rw [List.filter_eq_nil_iff.mpr hall]
  rfl

theorem countAdmins_insert_le (l : List Customer) (row : Customer)
    (h : row.isAdmin = true → (l.filter (fun c => c.isAdmin)).length = 0)
    (hinv : (l.filter (fun c => c.isAdmin)).length ≤ 1) :
    ((l ++ [row]).filter (fun c => c.isAdmin)).length ≤ 1 := by
  rw [List.filter_append, List.length_append]
  by_cases hr : row.isAdmin = true
  · rw [h hr]
    simp [List.filter, hr]
  · have hr' : row.isAdmin = false := Bool.eq_false_iff.mpr hr
    simp [List.filter, hr', hinv]

theorem register_preserves_atMostOneAdmin (d : RegisterData) (db : DB)
    (hinv : atMostOneAdmin db) :
    atMostOneAdmin (registerCustomer d db).2 := by
  unfold registerCustomer
  repeat' split
  all_goals try exact hinv
  dsimp only
  split
  · exact hinv
  · rename_i hNoTwo
    split
    · unfold atMostOneAdmin countAdmins at hinv ⊢
      dsimp only
      refine countAdmins_insert_le _ _ ?_ hinv
      intro hadm
      dsimp only at hadm
      rw [hadm] at hNoTwo
      have hb : (List.find? (fun c => c.isAdmin) db.customers).isSome = false := by
        simpa using hNoTwo
      have := countAdmins_of_no_admin hb
      simpa [countAdmins] using this
    · exact hinv

/-- C2 amended: the at-most-one-admin invariant is enforced only at
registration time: `register_customer` rejects an `IsAdmin = true` request
with a 400 error when an admin already exists, and registration preserves
the invariant — but `update_customer` accepts an arbitrary partial field
map including `IsAdmin` and can create a second admin (see the
counterexample). -/
theorem claim_C2_amended (d : RegisterData) (db : DB)
    (hinv : atMostOneAdmin db) :
    atMostOneAdmin (registerCustomer d db).2 ∧
    (∀ fn un pw ad ge ms, ∀ ag : Int,
      matchesUsernamePattern un = true →
      findCustomer db un = none →
      (db.customers.find? (fun c => c.isAdmin)).isSome = true →
      (registerCustomer ⟨some fn, some un, some pw, some ag, some ad,
        some ge, some ms, some true⟩ db).1 = .adminExists ∧
      (registerCustomer ⟨some fn, some un, some pw, some ag, some ad,
        some ge, some ms, some true⟩ db).2 = db ∧
      RegisterResult.adminExists.statusCode = 400) := by
  refine ⟨register_preserves_atMostOneAdmin d db hinv, ?_⟩
  intro fn un pw ad ge ms ag hpat hfree hadm
  refine ⟨?_, ?_, rfl⟩ <;>
    simp [registerCustomer, hpat, hfree, hadm]

/-- C2 amended witness: with Alice already admin, registering "carol"
with `IsAdmin = true` is rejected with the admin-exists 400 error and no
state change. -/
theorem claim_C2_amended_witness :
    (registerCustomer ⟨some "Carol C", some "carol", some "pw3", some 20,
      some "3 Third St", some "Female", some "Single", some true⟩ baseDB).1 =
      .adminExists ∧
    (registerCustomer ⟨some "Carol C", some "carol", some "pw3", some 20,
      some "3 Third St", some "Female", some "Single", some true⟩ baseDB).2 =
      baseDB ∧
    RegisterResult.adminExists.statusCode = 400 :=
  (claim_C2_amended ⟨some "Carol C", some "carol", some "pw3", some 20,
      some "3 Third St", some "Female", some "Single", some true⟩ baseDB
    (by decide)).2 "Carol C" "carol" "pw3" "3 Third St" "Female" "Single" 20
    (by decide) rfl rfl

/-- C4 counterexample: a purchase request with `quantity = 2` for the good
"Mouse" (stock 1) by the unknown customer "ghost" is answered with the
insufficient-stock 400 error, not the customer-not-found 404 that the
claim requires. -/
theorem claim_C4_counterexample :
    findCustomer baseDB "ghost" = none ∧
    (0 : Int) < 2 ∧
    findGoodByName baseDB "Mouse" = some mouseRow ∧
    mouseRow.stockCount < 2 ∧
    (makeSaleRun ⟨some "ghost", some "Mouse", some 2⟩ baseDB).1 =
      .insufficientStock 1 ∧
    (makeSaleRun ⟨some "ghost", some "Mouse", some 2⟩ baseDB).1 ≠
      .customerNotFound ∧
    SaleResult.statusCode (.insufficientStock 1) = 400 := by
  refine ⟨rfl, by decide, rfl, by decide, by decide, by decide, rfl⟩

/-- C4 amended: `make_sale` checks stock before resolving the customer:
with a positive quantity and an existing good, insufficient stock is
reported as the 400 `InsufficientStock` error regardless of whether the
customer exists, and the customer is resolved (404 when absent) only when
the stock check passes. -/
theorem claim_C4_amended (db : DB) (u gn : String) (q : Int) (good : Good)
    (hq : 0 < q) (hg : findGoodByName db gn = some good) :
    (good.stockCount < q →
      makeSaleRun ⟨some u, some gn, some q⟩ db =
        (.insufficientStock good.stockCount, db) ∧
      SaleResult.statusCode (.insufficientStock good.stockCount) = 400) ∧
    (q ≤ good.stockCount → findCustomer db u = none →
      makeSaleRun ⟨some u, some gn, some q⟩ db = (.customerNotFound, db) ∧
      SaleResult.customerNotFound.statusCode = 404) := by
  constructor
  · intro hstock
    refine ⟨?_, rfl⟩
    simp [makeSaleRun, makeSale, not_le.mpr hq, hg, hstock]
  · intro hstock hcust
    refine ⟨?_, rfl⟩
    simp [makeSaleRun, makeSale, not_le.mpr hq, hg, not_lt.mpr hstock, hcust]

/-- C4 amended witness: "Mouse" has stock 1; quantity 2 gives the 400
stock error for the unknown customer, quantity 1 gives the 404. -/
theorem claim_C4_amended_witness :
    (makeSaleRun ⟨some "ghost", some "Mouse", some 2⟩ baseDB =
      (.insufficientStock mouseRow.stockCount, baseDB) ∧
     SaleResult.statusCode (.insufficientStock mouseRow.stockCount) = 400) ∧
    (makeSaleRun ⟨some "ghost", some "Mouse", some 1⟩ baseDB =
      (.customerNotFound, baseDB) ∧
     SaleResult.customerNotFound.statusCode = 404) :=
  ⟨(claim_C4_amended baseDB "ghost" "Mouse" 2 mouseRow (by decide) rfl).1
     (by decide),
   (claim_C4_amended baseDB "ghost" "Mouse" 1 mouseRow (by decide) rfl).2
     (by decide) rfl⟩

theorem register_preserves_walletsNonneg (d : RegisterData) (db : DB)
    (hw : walletsNonneg db) : walletsNonneg (registerCustomer d db).2 := by
  unfold registerCustomer
  repeat' split
  all_goals try exact hw
  dsimp only
  split
  · exact hw
  · split
    · intro c hc
      rcases List.mem_append.mp hc with h | h
      · exact hw c h
      · rcases List.mem_singleton.mp h with rfl
        exact le_refl _
    · exact hw

theorem register_created_wallet_zero (d : RegisterData) (db : DB) :
    (registerCustomer d db).1 = .created →
    ∃ c, (registerCustomer d db).2.customers.getLast? = some c ∧
      c.walletBalance = 0 := by
  unfold registerCustomer
  repeat' split
  all_goals intro h
  all_goals try contradiction
  dsimp only at h ⊢
  split at h
  · contradiction
  · rename_i hc1
    split at h
    · rename_i hc2
      rw [if_neg hc1, if_pos hc2]
      exact ⟨_, by rw [List.getLast?_concat], rfl⟩
    · contradiction

theorem charge_preserves_walletsNonneg (u t : String) (amt : Option AmountVal)
    (db : DB) (hw : walletsNonneg db) :
    walletsNonneg (chargeWallet u t amt db).2 := by
  unfold chargeWallet
  repeat' split
  all_goals try exact hw
  next db1 heq => exact sqlUpdateCustomers_walletsNonneg heq hw

theorem deduct_preserves_walletsNonneg (u t : String) (amt : Option AmountVal)
    (db : DB) (hw : walletsNonneg db) :
    walletsNonneg (deductWallet u t amt db).2 := by
  unfold deductWallet
  repeat' split
  all_goals try exact hw
  next db1 heq => exact sqlUpdateCustomers_walletsNonneg heq hw

theorem update_preserves_walletsNonneg (u t : String) (upd : UpdateData)
    (db : DB) (hw : walletsNonneg db) :
    walletsNonneg (updateCustomer u t upd db).2 := by
  unfold updateCustomer
  repeat' split
  all_goals try exact hw
  next db1 heq => exact sqlUpdateCustomers_walletsNonneg heq hw

theorem delete_preserves_walletsNonneg (u t : String) (db : DB)
    (hw : walletsNonneg db) : walletsNonneg (deleteCustomer u t db).2 := by
  unfold deleteCustomer
  repeat' split
  all_goals try exact hw
  intro c hc
  exact hw c (List.mem_of_mem_filter hc)

theorem walletsNonneg_of_customers_eq {db1 db2 : DB}
    (h : db2.customers = db1.customers) (hw : walletsNonneg db1) :
    walletsNonneg db2 := by
  intro c hc
  rw [h] at hc
  exact hw c hc

theorem makeSale_trace_walletsNonneg (d : SaleData) (db : DB)
    (hw : walletsNonneg db) : ∀ s ∈ (makeSale d db).2, walletsNonneg s := by
  unfold makeSale
  repeat' split
  all_goals try (intro s hs; cases hs)
  dsimp only
  repeat' split
  all_goals try (intro s hs; cases hs)
  · rename_i xc db1 heqc xg heqg
    exact sqlUpdateCustomers_walletsNonneg heqc hw
  · rename_i hmem
    cases hmem
  · rename_i xc db1 heqc xg db2 heqg xp heqp
    exact sqlUpdateCustomers_walletsNonneg heqc hw
  · rename_i xc db1 heqc xg db2 heqg xp heqp hmem
    rcases List.mem_singleton.mp hmem with rfl
    exact walletsNonneg_of_customers_eq (sqlUpdateGoods_customers heqg).1
      (sqlUpdateCustomers_walletsNonneg heqc hw)
  · rename_i xc db1 heqc xg db2 heqg xp db3 heqp
    exact sqlUpdateCustomers_walletsNonneg heqc hw
  · rename_i xc db1 heqc xg db2 heqg xp db3 heqp hmem
    have h2 := walletsNonneg_of_customers_eq (sqlUpdateGoods_customers heqg).1
      (sqlUpdateCustomers_walletsNonneg heqc hw)
    cases hmem with
    | head => exact h2
    | tail _ hmem2 =>
        rcases List.mem_singleton.mp hmem2 with rfl
        exact walletsNonneg_of_customers_eq (sqlInsertPurchase_customers heqp).1 h2

theorem getLastD_mem_cons {α : Type} (l : List α) (a : α) :
    l.getLastD a ∈ a :: l := by
  induction l generalizing a with
  | nil => exact List.mem_cons_self _ _
  | cons x t ih =>
      rw [List.getLastD_cons]
      exact List.mem_cons_of_mem a (ih x)

/-- C3: every operation preserves nonnegativity of all stored wallet
balances: `register` (which initializes the new balance to 0), both
wallet operations, `update_customer` with an arbitrary partial field map
(the schema's `CHECK (WalletBalance >= 0.0)` aborts any update that would
store a negative balance), `delete_customer`, and the whole `make_sale`
pipeline (every state it commits, hence also its final state). -/
theorem claim_C3 (db : DB) (hw : walletsNonneg db) :
    (∀ d, walletsNonneg (registerCustomer d db).2) ∧
    (∀ d, (registerCustomer d db).1 = .created →
      ∃ c, (registerCustomer d db).2.customers.getLast? = some c ∧
        c.walletBalance = 0) ∧
    (∀ u t amt, walletsNonneg (chargeWallet u t amt db).2) ∧
    (∀ u t amt, walletsNonneg (deductWallet u t amt db).2) ∧
    (∀ u t upd, walletsNonneg (updateCustomer u t upd db).2) ∧
    (∀ u t, walletsNonneg (deleteCustomer u t db).2) ∧
    (∀ d s, s ∈ (makeSale d db).2 → walletsNonneg s) ∧
    (∀ d, walletsNonneg (makeSaleRun d db).2) :=
  ⟨fun d => register_preserves_walletsNonneg d db hw,
   fun d => register_created_wallet_zero d db,
   fun u t amt => charge_preserves_walletsNonneg u t amt db hw,
   fun u t amt => deduct_preserves_walletsNonneg u t amt db hw,
   fun u t upd => update_preserves_walletsNonneg u t upd db hw,
   fun u t => delete_preserves_walletsNonneg u t db hw,
   fun d s hs => makeSale_trace_walletsNonneg d db hw s hs,
   fun d => by
     have hmem := getLastD_mem_cons (makeSale d db).2 db
     rcases List.mem_cons.mp hmem with heq | hmem2
     · show walletsNonneg ((makeSale d db).2.getLastD db)
       rw [heq]
       exact hw
     · exact makeSale_trace_walletsNonneg d db hw _ hmem2⟩

/-- C3 witness: the invariant after concrete charge, deduct, update and
purchase operations on the fixture state. -/
theorem claim_C3_witness :
    walletsNonneg (chargeWallet "bob" "bob" (some (.num 25)) baseDB).2 ∧
    walletsNonneg (deductWallet "bob" "bob" (some (.num 20)) baseDB).2 ∧
    walletsNonneg (updateCustomer "bob" "bob" adminOnlyUpdate baseDB).2 ∧
    walletsNonneg (makeSaleRun ⟨some "alice", some "Laptop", some 1⟩ baseDB).2 :=
  ⟨(claim_C3 baseDB (by decide)).2.2.1 "bob" "bob" (some (.num 25)),
   (claim_C3 baseDB (by decide)).2.2.2.1 "bob" "bob" (some (.num 20)),
   (claim_C3 baseDB (by decide)).2.2.2.2.1 "bob" "bob" adminOnlyUpdate,
   (claim_C3 baseDB (by decide)).2.2.2.2.2.2.2 ⟨some "alice", some "Laptop", some 1⟩⟩

/-- C1 amended: a `make_sale` call that fails a validation check commits
nothing; a call that passes all checks applies all three mutations, but
as three separately committed statements — the committed-state trace is
exactly wallet-debit only, then wallet+stock, then wallet+stock+ledger —
so the intermediate committed states are durable and an abort between
commits leaves partial application. -/
theorem claim_C1_amended (d : SaleData) (db : DB) :
    ((makeSale d db).1.isCheckFailure = true →
      (makeSale d db).2 = [] ∧ makeSaleRun d db = ((makeSale d db).1, db)) ∧
    (∀ t, (makeSale d db).1 = .success t →
      ∃ u gn q good customer,
        d.username = some u ∧ d.goodName = some gn ∧ d.quantity = some q ∧
        findGoodByName db gn = some good ∧ findCustomer db u = some customer ∧
        t = good.pricePerItem * q ∧
        (makeSale d db).2 =
          [ { db with customers := (db.customers.map (fun c =>
                if c.customerId == customer.customerId then
                  { c with walletBalance := c.walletBalance - t } else c)) },
            { db with
                customers := (db.customers.map (fun c =>
                  if c.customerId == customer.customerId then
                    { c with walletBalance := c.walletBalance - t } else c)),
                goods := (db.goods.map (fun g =>
                  if g.goodId == good.goodId then
                    { g with stockCount := g.stockCount - q } else g)) },
            { db with
                customers := (db.customers.map (fun c =>
                  if c.customerId == customer.customerId then
                    { c with walletBalance := c.walletBalance - t } else c)),
                goods := (db.goods.map (fun g =>
                  if g.goodId == good.goodId then
                    { g with stockCount := g.stockCount - q } else g)),
                purchases := db.purchases ++
                  [⟨customer.customerId, good.goodId, q, t⟩] } ]) := by
  constructor
  · unfold makeSaleRun makeSale
    repeat' split
    all_goals intro h
    all_goals try exact ⟨rfl, rfl⟩
    revert h
    dsimp only
    repeat' split
    all_goals intro h
    all_goals try exact ⟨rfl, rfl⟩
    all_goals cases h
  · unfold makeSale
    repeat' split
    all_goals intro t ht
    all_goals try cases ht
    revert ht
    dsimp only
    repeat' split
    all_goals intro ht
    all_goals try cases ht
    rename_i a1 u hu a2 gn hgn a3 q hq hqpos a4 good hgood hstock
      a5 customer hcust hfunds xc dbW heqc xg dbWS heqg xp dbWSP heqp
    refine ⟨u, gn, q, good, customer, hu, hgn, hq, hgood, hcust, rfl, ?_⟩
    unfold sqlUpdateCustomers at heqc
    split at heqc
    · injection heqc with h1
      subst h1
      unfold sqlUpdateGoods at heqg
      split at heqg
      · injection heqg with h2
        subst h2
        unfold sqlInsertPurchase at heqp
        split at heqp
        · injection heqp with h3
          subst h3
          rfl
        · cases heqp
      · cases heqg
    · cases heqc

/-- The fixture purchase request: Alice buys one Laptop (price 40,
stock 10; her balance is 100). -/
def saleReq : SaleData := ⟨some "alice", some "Laptop", some 1⟩

/-- C1 counterexample: the fixture purchase passes every check and
succeeds, yet the first committed state of the call — a durable outcome
if execution stops after the first commit — has the wallet debited
(100 → 60) while the stock is not decremented (still 10) and no ledger
row exists: exactly the outcome the claim says can never exist. -/
theorem claim_C1_counterexample :
    (makeSale saleReq baseDB).1 = .success 40 ∧
    walletOf baseDB "alice" = some 100 ∧
    stockOf baseDB "Laptop" = some 10 ∧
    baseDB.purchases = [] ∧
    ((makeSale saleReq baseDB).2.headD baseDB) ∈ saleDurableStates saleReq baseDB ∧
    walletOf ((makeSale saleReq baseDB).2.headD baseDB) "alice" = some 60 ∧
    stockOf ((makeSale saleReq baseDB).2.headD baseDB) "Laptop" = some 10 ∧
    ((makeSale saleReq baseDB).2.headD baseDB).purchases = [] := by
  refine ⟨?_, rfl, rfl, rfl, ?_, ?_, ?_, ?_⟩ <;>
  · simp [saleReq, saleDurableStates, makeSale, findCustomer, findGoodByName,
      walletOf, stockOf, baseDB, aliceRow, bobRow, laptopRow, mouseRow,
      sqlUpdateCustomers, sqlUpdateGoods, sqlInsertPurchase, customerRowOk,
      goodRowOk, purchaseRowOk]
    norm_num

/-- C1 amended witness: a request with all fields missing is a check
failure committing nothing; the fixture request succeeds and its
committed-state trace is the three-step sequence of the theorem. -/
theorem claim_C1_amended_witness :
    ((makeSale ⟨none, none, none⟩ baseDB).2 = [] ∧
      makeSaleRun ⟨none, none, none⟩ baseDB =
        ((makeSale ⟨none, none, none⟩ baseDB).1, baseDB)) ∧
    (∃ u gn q good customer,
      saleReq.username = some u ∧ saleReq.goodName = some gn ∧
      saleReq.quantity = some q ∧
      findGoodByName baseDB gn = some good ∧
      findCustomer baseDB u = some customer ∧
      (40 : ℚ) = good.pricePerItem * q ∧
      (makeSale saleReq baseDB).2 =
        [ { baseDB with customers := (baseDB.customers.map (fun c =>
              if c.customerId == customer.customerId then
                { c with walletBalance := c.walletBalance - 40 } else c)) },
          { baseDB with
              customers := (baseDB.customers.map (fun c =>
                if c.customerId == customer.customerId then
                  { c with walletBalance := c.walletBalance - 40 } else c)),
              goods := (baseDB.goods.map (fun g =>
                if g.goodId == good.goodId then
                  { g with stockCount := g.stockCount - q } else g)) },
          { baseDB with
              customers := (baseDB.customers.map (fun c =>
                if c.customerId == customer.customerId then
                  { c with walletBalance := c.walletBalance - 40 } else c)),
              goods := (baseDB.goods.map (fun g =>
                if g.goodId == good.goodId then
                  { g with stockCount := g.stockCount - q } else g)),
              purchases := baseDB.purchases ++
                [⟨customer.customerId, good.goodId, q, 40⟩] } ]) := by
  refine ⟨(claim_C1_amended ⟨none, none, none⟩ baseDB).1 rfl, ?_⟩
  exact (claim_C1_amended saleReq baseDB).2 40 (by
    simp [saleReq, makeSale, findCustomer, findGoodByName, baseDB, aliceRow,
      bobRow, laptopRow, mouseRow, sqlUpdateCustomers, sqlUpdateGoods,
      sqlInsertPurchase, customerRowOk, goodRowOk, purchaseRowOk]
    norm_num)
